import Mathlib

/-!
# ID100 application layer: a shallow embedding

This file embeds the application-layer command driver of the ID100 clock
utility (`src/app.c`) in Lean 4 and proves the specified request/response
properties about it.

Modelling conventions:
* Machine bytes and 16-bit words are `Nat` with explicit `% 2 ^ 16`
  truncation where C assignment to `uint16_t` truncates.
* The link layer (`link.h`, an external collaborator) is a value of type
  `Link`: a function from the sent command tag to the received
  `(command, length, data)` triple.
* `ExitWithError` (process-terminating) is modelled as an `Except AppError`
  result; the error constructors mirror the three distinct error messages
  of `app.c`.
* Sending is modelled by returning the sent frame (tag, payload, declared
  length) next to the result, so that what was transmitted is observable.
* The host is taken to be little-endian (the branch of the conditional
  `APP_SWAP_ENDIAN_16` macro in which the swap is performed); the
  big-endian no-op branch is `APP_SWAP_ENDIAN_16_BE`.
* Record types whose layout lives in `app.h` (absent from the sources;
  only `app.c` is given) are modelled as byte lists, with their fixed
  sizes as parameters.
-/

/-- The three fatal error classes of `app.c`, mirroring its three distinct
`ExitWithError` call sites: unexpected answer command tag, unexpected
received length, and bad echoed page number. -/
inductive AppError where
  | invalidAnswerCommand (recvCmd : Nat)
  | invalidLength (recvLength : Nat)
  | badPageNumber (pageNumber : Nat)
deriving DecidableEq

/-- The link layer, an external collaborator: given the command tag that was
sent, it produces the received command tag, the received length, and the
bytes deposited in the receive buffer. -/
structure Link where
  recv : Nat → Nat × Nat × List Nat

/-- A sent frame: the command tag, the request payload handed to
`LinkSendCommandAndBuffer`, and the declared payload length. -/
structure Sent (α : Type) where
  tag : Nat
  payload : α
  length : Nat
deriving DecidableEq

/-- Endianness-correcting macro `APP_SWAP_ENDIAN_16` of `app.c` on a host
whose byte order is not big-endian: `(num) = ((num) << 8) | ((num) >> 8)`,
the assignment back into a `uint16_t` truncating to 16 bits. -/
def APP_SWAP_ENDIAN_16 (num : Nat) : Nat :=
  ((num <<< 8) ||| (num >>> 8)) % 65536

/-- Endianness-correcting macro `APP_SWAP_ENDIAN_16` of `app.c` on a
big-endian host: the macro expands to nothing, so the value is unchanged. -/
def APP_SWAP_ENDIAN_16_BE (num : Nat) : Nat := num

/-- PPM calibration limit `APP_PPM_LIMIT` of `app.c` (189.0f). The float is
exactly representable; calibration values are modelled as rationals. -/
def APP_PPM_LIMIT : ℚ := 189

/-- A 16-bit load from two consecutive memory bytes on the little-endian
host: byte 0 is the low-order byte. -/
def readLE16 (b0 b1 : Nat) : Nat := b0 + 256 * b1

/-- The simulated device's big-endian wire encoding of a 16-bit field:
high-order byte first. -/
def encodeBE16 (n : Nat) : List Nat := [n / 256, n % 256]

/-- `AppSendAndReceive` of `app.c`: send the command and optional data,
receive the answer, check the received command tag against the sent one and
the received length against the expected one.  The sent frame is returned
next to the validation result. -/
def AppSendAndReceive {α : Type} (link : Link) (command : Nat) (sendBuf : α)
    (sendBufLen : Nat) (recvBufLen : Nat) :
    Sent α × Except AppError (List Nat) :=
  let out := link.recv command
  let recvCmd := out.1
  let recvLength := out.2.1
  let recvData := out.2.2
  let result : Except AppError (List Nat) :=
    if recvCmd ≠ command then .error (.invalidAnswerCommand recvCmd)
    else if recvLength ≠ recvBufLen then .error (.invalidLength recvLength)
    else .ok recvData
  (⟨command, sendBuf, sendBufLen⟩, result)

/-- `AppVersionType`: the firmware version record, three 16-bit fields. -/
structure AppVersionType where
  major : Nat
  minor : Nat
  revision : Nat
deriving DecidableEq

/-- The little-endian host's in-memory view of the 6 version bytes the link
layer deposited into an `AppVersionType` buffer. -/
def loadVersion (data : List Nat) : AppVersionType :=
  { major := readLE16 (data.getD 0 0) (data.getD 1 0)
    minor := readLE16 (data.getD 2 0) (data.getD 3 0)
    revision := readLE16 (data.getD 4 0) (data.getD 5 0) }

/-- `AppGetVersion` of `app.c`: tag `v`, no request payload, 6-byte response;
all three 16-bit fields are endian-swapped after receipt. -/
def AppGetVersion (link : Link) : Sent Unit × Except AppError AppVersionType :=
  let sr := AppSendAndReceive link ('v').toNat () 0 6
  (sr.1, sr.2.map fun data =>
    let version := loadVersion data
    { major := APP_SWAP_ENDIAN_16 version.major
      minor := APP_SWAP_ENDIAN_16 version.minor
      revision := APP_SWAP_ENDIAN_16 version.revision })

/-- `AppGetDateTime` of `app.c`: tag `t`, no request payload, fixed-size
date/time record, no field-level swapping.  `sizeof(AppDateTimeType)` lives
in the absent `app.h` and is taken as the parameter `dateTimeSize`. -/
def AppGetDateTime (link : Link) (dateTimeSize : Nat) :
    Sent Unit × Except AppError (List Nat) :=
  AppSendAndReceive link ('t').toNat () 0 dateTimeSize

/-- `AppSetDateTime` of `app.c`: tag `T`, fixed-size date/time record sent
verbatim, no response payload. -/
def AppSetDateTime (link : Link) (dateTime : List Nat) :
    Sent (List Nat) × Except AppError Unit :=
  let sr := AppSendAndReceive link ('T').toNat dateTime dateTime.length 0
  (sr.1, sr.2.map fun _ => ())

/-- `AppSetNormalMode` of `app.c`: tag `A`, no payload either direction. -/
def AppSetNormalMode (link : Link) : Sent Unit × Except AppError Unit :=
  let sr := AppSendAndReceive link ('A').toNat () 0 0
  (sr.1, sr.2.map fun _ => ())

/-- `AppSetPreviewMode` of `app.c`: tag `a`, no payload either direction. -/
def AppSetPreviewMode (link : Link) : Sent Unit × Except AppError Unit :=
  let sr := AppSendAndReceive link ('a').toNat () 0 0
  (sr.1, sr.2.map fun _ => ())

/-- `AppFactoryReset` of `app.c`: tag `X`, no payload either direction. -/
def AppFactoryReset (link : Link) : Sent Unit × Except AppError Unit :=
  let sr := AppSendAndReceive link ('X').toNat () 0 0
  (sr.1, sr.2.map fun _ => ())

/-- `AppActivateBootloader` of `app.c`: tag `!`, no payload either
direction. -/
def AppActivateBootloader (link : Link) : Sent Unit × Except AppError Unit :=
  let sr := AppSendAndReceive link ('!').toNat () 0 0
  (sr.1, sr.2.map fun _ => ())

/-- `AppSetPreviewMatrix` of `app.c`: tag `D`, fixed-size bitmap payload
(`sizeof(AppMatrixBitmapType)`, from the absent `app.h`, is the caller's
buffer length), no response payload. -/
def AppSetPreviewMatrix (link : Link) (matrix : List Nat) :
    Sent (List Nat) × Except AppError Unit :=
  let sr := AppSendAndReceive link ('D').toNat matrix matrix.length 0
  (sr.1, sr.2.map fun _ => ())

/-- `AppGetIntensity` of `app.c`: tag `b`, no request payload, single
fixed-width scalar response, no swap.  `sizeof(AppIntensityType)` lives in
the absent `app.h` and is taken as the parameter `intensitySize`. -/
def AppGetIntensity (link : Link) (intensitySize : Nat) :
    Sent Unit × Except AppError (List Nat) :=
  AppSendAndReceive link ('b').toNat () 0 intensitySize

/-- `AppSetIntensity` of `app.c`: tag `B`, single fixed-width scalar sent
verbatim, no response payload. -/
def AppSetIntensity (link : Link) (intensity : List Nat) :
    Sent (List Nat) × Except AppError Unit :=
  let sr := AppSendAndReceive link ('B').toNat intensity intensity.length 0
  (sr.1, sr.2.map fun _ => ())

/-- `AppGetLastCalibration` of `app.c`: tag `c`, no request payload,
fixed-size record response (`sizeof(AppLastCalibrationType)` from the absent
`app.h` is the parameter `lastCalibrationSize`). -/
def AppGetLastCalibration (link : Link) (lastCalibrationSize : Nat) :
    Sent Unit × Except AppError (List Nat) :=
  AppSendAndReceive link ('c').toNat () 0 lastCalibrationSize

/-- `AppSetRtcCalibration` of `app.c`: tag `C`; the PPM value is first
limited to `[-APP_PPM_LIMIT, APP_PPM_LIMIT]`, then sent
(`sizeof(float) = 4`); no response payload.  The `float` value is modelled
as a rational: the clamp uses only order comparisons against the exactly
representable literal 189.0f. -/
def AppSetRtcCalibration (link : Link) (ppmDifference : ℚ) :
    Sent ℚ × Except AppError Unit :=
  let ppm :=
    if ppmDifference > APP_PPM_LIMIT then APP_PPM_LIMIT
    else if ppmDifference < -APP_PPM_LIMIT then -APP_PPM_LIMIT
    else ppmDifference
  let sr := AppSendAndReceive link ('C').toNat ppm 4 0
  (sr.1, sr.2.map fun _ => ())

/-- `AppGetStandby` of `app.c`: tag `s`, no request payload, fixed-size
record response (`sizeof(AppStandbyType)` from the absent `app.h` is the
parameter `standbySize`). -/
def AppGetStandby (link : Link) (standbySize : Nat) :
    Sent Unit × Except AppError (List Nat) :=
  AppSendAndReceive link ('s').toNat () 0 standbySize

/-- `AppSetStandby` of `app.c`: tag `S`, fixed-size record sent verbatim,
no response payload. -/
def AppSetStandby (link : Link) (standby : List Nat) :
    Sent (List Nat) × Except AppError Unit :=
  let sr := AppSendAndReceive link ('S').toNat standby standby.length 0
  (sr.1, sr.2.map fun _ => ())

/-- `AppFlashConfigPageType`: the echoed 16-bit page number together with
the page payload.  Modelled from the spec: the layout lives in the absent
`app.h`; §3 gives a response of page payload plus an echoed page number,
modelled here with the page number in the first two bytes. -/
structure AppFlashConfigPageType where
  pageNumber : Nat
  config : List Nat
deriving DecidableEq

/-- The little-endian host's in-memory view of a received
`AppFlashConfigPageType` buffer. -/
def loadFlashConfigPage (data : List Nat) : AppFlashConfigPageType :=
  { pageNumber := readLE16 (data.getD 0 0) (data.getD 1 0)
    config := data.drop 2 }

/-- `AppGetFlashConfigPage` of `app.c`: tag `f`; the 16-bit page number is
swapped, sent, and swapped back; the response's page number is swapped back
and must equal the requested one, otherwise the bad echoed page number is a
fatal error.  The page payload size (from the absent `app.h`) is the
parameter `configDataSize`. -/
def AppGetFlashConfigPage (link : Link) (pageNumber : Nat)
    (configDataSize : Nat) : Sent Nat × Except AppError AppFlashConfigPageType :=
  let pageNumber1 := APP_SWAP_ENDIAN_16 pageNumber
  let sr := AppSendAndReceive link ('f').toNat pageNumber1 2 (2 + configDataSize)
  (sr.1, sr.2.bind fun data =>
    let pageNumber2 := APP_SWAP_ENDIAN_16 pageNumber1
    let config0 := loadFlashConfigPage data
    let config := { config0 with pageNumber := APP_SWAP_ENDIAN_16 config0.pageNumber }
    if config.pageNumber ≠ pageNumber2 then .error (.badPageNumber config.pageNumber)
    else .ok config)

/-- `AppEraseFlashConfigSector` of `app.c`: tag `E`; the 16-bit start page
is swapped, sent, and swapped back; the 16-bit echoed erased page is swapped
back and must equal the start page, otherwise the bad echoed page number is
a fatal error. -/
def AppEraseFlashConfigSector (link : Link) (startPage : Nat) :
    Sent Nat × Except AppError Unit :=
  let startPage1 := APP_SWAP_ENDIAN_16 startPage
  let sr := AppSendAndReceive link ('E').toNat startPage1 2 2
  (sr.1, sr.2.bind fun data =>
    let pageErased := APP_SWAP_ENDIAN_16 (readLE16 (data.getD 0 0) (data.getD 1 0))
    let startPage2 := APP_SWAP_ENDIAN_16 startPage1
    if pageErased ≠ startPage2 then .error (.badPageNumber pageErased)
    else .ok ())

/-- `AppFlashClockConfigType`: a 16-bit page number field embedded in a
record of otherwise opaque bytes.  Modelled from the spec: the layout lives
in the absent `app.h`; only the 16-bit `pageNumber` field is ever touched
by this layer, the rest is carried verbatim. -/
structure AppFlashClockConfigType where
  pageNumber : Nat
  clockConfig : List Nat
deriving DecidableEq

/-- `AppSetFlashClockConfig` of `app.c`: tag `F`; the page-number field of
the caller's record is swapped in place before sending and swapped back
after; the 16-bit echoed page number is swapped back and must equal the
(restored) request page number, otherwise the bad echoed page number is a
fatal error.  The in-place mutation is modelled by returning the caller's
record in its final state on success. -/
def AppSetFlashClockConfig (link : Link) (config : AppFlashClockConfigType) :
    Sent AppFlashClockConfigType × Except AppError AppFlashClockConfigType :=
  let config1 := { config with pageNumber := APP_SWAP_ENDIAN_16 config.pageNumber }
  let sr := AppSendAndReceive link ('F').toNat config1
    (2 + config.clockConfig.length) 2
  (sr.1, sr.2.bind fun data =>
    let config2 := { config1 with pageNumber := APP_SWAP_ENDIAN_16 config1.pageNumber }
    let pageNumber := APP_SWAP_ENDIAN_16 (readLE16 (data.getD 0 0) (data.getD 1 0))
    if pageNumber ≠ config2.pageNumber then .error (.badPageNumber pageNumber)
    else .ok config2)

/-- `AppGetAppointments` of `app.c`: tag `r`, no request payload, fixed-size
opaque table response (`sizeof(AppointmentsConfigType)` from the absent
`app.h` is the parameter `appointmentsSize`). -/
def AppGetAppointments (link : Link) (appointmentsSize : Nat) :
    Sent Unit × Except AppError (List Nat) :=
  AppSendAndReceive link ('r').toNat () 0 appointmentsSize

/-- `AppSetAppointments` of `app.c`: tag `R`, fixed-size opaque table sent
verbatim, no response payload. -/
def AppSetAppointments (link : Link) (appointments : List Nat) :
    Sent (List Nat) × Except AppError Unit :=
  let sr := AppSendAndReceive link ('R').toNat appointments appointments.length 0
  (sr.1, sr.2.map fun _ => ())

theorem swap16_eq (v : Nat) (h : v < 65536) :
    APP_SWAP_ENDIAN_16 v = v % 256 * 256 + v / 256 := by
  have h1 : v >>> 8 = v / 256 := by
    rw [Nat.shiftRight_eq_div_pow]
  have h2 : v <<< 8 = 2 ^ 8 * v := by
    rw [Nat.shiftLeft_eq, Nat.mul_comm]
  have h3 : v / 256 < 2 ^ 8 := by omega
  unfold APP_SWAP_ENDIAN_16
  rw [h1, h2, ← Nat.mul_add_lt_is_or h3]
  omega

theorem swap16_lt (v : Nat) : APP_SWAP_ENDIAN_16 v < 65536 :=
  Nat.mod_lt _ (by omega)

theorem swap16_swap16 (v : Nat) (h : v < 65536) :
    APP_SWAP_ENDIAN_16 (APP_SWAP_ENDIAN_16 v) = v := by
  rw [swap16_eq v h, swap16_eq _ (by omega)]
  omega

theorem swap16_readBE (n : Nat) (h : n < 65536) :
    APP_SWAP_ENDIAN_16 (readLE16 (n / 256) (n % 256)) = n := by
  rw [readLE16, swap16_eq _ (by omega)]
  omega

theorem sendAndReceive_sent {α : Type} (link : Link) (command : Nat)
    (sendBuf : α) (sendBufLen recvBufLen : Nat) :
    (AppSendAndReceive link command sendBuf sendBufLen recvBufLen).1 =
      ⟨command, sendBuf, sendBufLen⟩ := rfl

theorem sendAndReceive_ok {α : Type} (link : Link) (command : Nat)
    (sendBuf : α) (sendBufLen recvBufLen : Nat) (bs : List Nat)
    (h : link.recv command = (command, recvBufLen, bs)) :
    (AppSendAndReceive link command sendBuf sendBufLen recvBufLen).2 =
      .ok bs := by
  simp [AppSendAndReceive, h]

theorem sendAndReceive_badTag {α : Type} (link : Link) (command : Nat)
    (sendBuf : α) (sendBufLen recvBufLen : Nat) (recvCmd recvLength : Nat)
    (bs : List Nat) (h : link.recv command = (recvCmd, recvLength, bs))
    (hne : recvCmd ≠ command) :
    (AppSendAndReceive link command sendBuf sendBufLen recvBufLen).2 =
      .error (.invalidAnswerCommand recvCmd) := by
  simp [AppSendAndReceive, h, hne]

theorem sendAndReceive_badLen {α : Type} (link : Link) (command : Nat)
    (sendBuf : α) (sendBufLen recvBufLen : Nat) (recvLength : Nat)
    (bs : List Nat) (h : link.recv command = (command, recvLength, bs))
    (hne : recvLength ≠ recvBufLen) :
    (AppSendAndReceive link command sendBuf sendBufLen recvBufLen).2 =
      .error (.invalidLength recvLength) := by
  simp [AppSendAndReceive, h, hne]

theorem getFlashConfigPage_cases (link : Link) (page e : Nat)
    (rest : List Nat) (hp : page < 65536) (he : e < 65536)
    (h : link.recv (('f').toNat) =
      (('f').toNat, 2 + rest.length, encodeBE16 e ++ rest)) :
    (AppGetFlashConfigPage link page rest.length).2 =
      if e ≠ page then .error (.badPageNumber e)
      else .ok ⟨e, rest⟩ := by
  have h2 := sendAndReceive_ok link (('f').toNat) (APP_SWAP_ENDIAN_16 page) 2
    (2 + rest.length) _ h
  simp only [AppGetFlashConfigPage]
  rw [h2]
  show (if APP_SWAP_ENDIAN_16 (readLE16 (e / 256) (e % 256)) ≠
          APP_SWAP_ENDIAN_16 (APP_SWAP_ENDIAN_16 page)
        then Except.error (AppError.badPageNumber
          (APP_SWAP_ENDIAN_16 (readLE16 (e / 256) (e % 256))))
        else Except.ok (AppFlashConfigPageType.mk
          (APP_SWAP_ENDIAN_16 (readLE16 (e / 256) (e % 256))) rest)) = _
  rw [swap16_readBE e he, swap16_swap16 page hp]

theorem eraseFlashConfigSector_cases (link : Link) (startPage e : Nat)
    (hp : startPage < 65536) (he : e < 65536)
    (h : link.recv (('E').toNat) = (('E').toNat, 2, encodeBE16 e)) :
    (AppEraseFlashConfigSector link startPage).2 =
      if e ≠ startPage then .error (.badPageNumber e) else .ok () := by
  have h2 := sendAndReceive_ok link (('E').toNat) (APP_SWAP_ENDIAN_16 startPage)
    2 2 (encodeBE16 e) h
  simp only [AppEraseFlashConfigSector]
  rw [h2]
  show (if APP_SWAP_ENDIAN_16 (readLE16 (e / 256) (e % 256)) ≠
          APP_SWAP_ENDIAN_16 (APP_SWAP_ENDIAN_16 startPage)
        then Except.error (AppError.badPageNumber
          (APP_SWAP_ENDIAN_16 (readLE16 (e / 256) (e % 256))))
        else Except.ok ()) = _
  rw [swap16_readBE e he, swap16_swap16 startPage hp]

theorem setFlashClockConfig_cases (link : Link)
    (config : AppFlashClockConfigType) (e : Nat)
    (hp : config.pageNumber < 65536) (he : e < 65536)
    (h : link.recv (('F').toNat) = (('F').toNat, 2, encodeBE16 e)) :
    (AppSetFlashClockConfig link config).2 =
      if e ≠ config.pageNumber then .error (.badPageNumber e)
      else .ok config := by
  have h2 := sendAndReceive_ok link (('F').toNat)
    { config with pageNumber := APP_SWAP_ENDIAN_16 config.pageNumber }
    (2 + config.clockConfig.length) 2 (encodeBE16 e) h
  simp only [AppSetFlashClockConfig]
  rw [h2]
  show (if APP_SWAP_ENDIAN_16 (readLE16 (e / 256) (e % 256)) ≠
          APP_SWAP_ENDIAN_16 (APP_SWAP_ENDIAN_16 config.pageNumber)
        then Except.error (AppError.badPageNumber
          (APP_SWAP_ENDIAN_16 (readLE16 (e / 256) (e % 256))))
        else Except.ok (AppFlashClockConfigType.mk
          (APP_SWAP_ENDIAN_16 (APP_SWAP_ENDIAN_16 config.pageNumber))
          config.clockConfig)) = _
  rw [swap16_readBE e he, swap16_swap16 config.pageNumber hp]

/-- Inversion for success of the flash clock-config set: the value returned
on success is the caller's record with its page number swapped twice. -/
theorem setFlashClockConfig_ok_inv (link : Link)
    (config result : AppFlashClockConfigType)
    (h : (AppSetFlashClockConfig link config).2 = .ok result) :
    result = { config with
      pageNumber := APP_SWAP_ENDIAN_16 (APP_SWAP_ENDIAN_16 config.pageNumber) } := by
  simp only [AppSetFlashClockConfig] at h
  rcases hsr : (AppSendAndReceive link (('F').toNat)
      { config with pageNumber := APP_SWAP_ENDIAN_16 config.pageNumber }
      (2 + config.clockConfig.length) 2).2 with e | data
  · rw [hsr] at h
    simp [Except.bind] at h
  · rw [hsr] at h
    simp only [Except.bind] at h
    split_ifs at h
    all_goals
      first
        | exact Except.noConfusion h
        | (injection h with h; exact h.symm)

/-- C4: applying the endianness transform twice yields the value back.
On a host whose byte order differs from big-endian, the transform is
`((v << 8) | (v >> 8))` truncated to 16 bits, and for every 16-bit value it
is self-inverse; on a big-endian host it is the identity, hence trivially
self-inverse. -/
theorem C4_swap_endian_involutive :
    (∀ v : Nat, v < 65536 →
      APP_SWAP_ENDIAN_16 (APP_SWAP_ENDIAN_16 v) = v) ∧
    (∀ v : Nat, APP_SWAP_ENDIAN_16_BE (APP_SWAP_ENDIAN_16_BE v) = v) := by
  constructor
  · intro v h
    rw [swap16_eq v h, swap16_eq _ (by omega)]
    omega
  · intro v
    rfl

/-- Witness for C4 at the concrete 16-bit value 0x1234. -/
theorem C4_swap_endian_involutive_witness :
    0x1234 < 65536 ∧ APP_SWAP_ENDIAN_16 (APP_SWAP_ENDIAN_16 0x1234) = 0x1234 :=
  ⟨by decide, C4_swap_endian_involutive.1 0x1234 (by decide)⟩

/-- C1: for every Catalog operation, if the link's receive returns the tag
that was sent and exactly the statically expected response length, the
operation returns without error, and the get-style operations decode
exactly the fields the simulated device encoded, 16-bit fields being
converted from big-endian wire order to host order where declared. -/
theorem C1_catalog_ok :
    (∀ (link : Link) (a b c : Nat), a < 65536 → b < 65536 → c < 65536 →
      link.recv (('v').toNat) =
        (('v').toNat, 6, encodeBE16 a ++ encodeBE16 b ++ encodeBE16 c) →
      (AppGetVersion link).2 = .ok ⟨a, b, c⟩) ∧
    (∀ (link : Link) (n : Nat) (bs : List Nat),
      link.recv (('t').toNat) = (('t').toNat, n, bs) →
      (AppGetDateTime link n).2 = .ok bs) ∧
    (∀ (link : Link) (dateTime bs : List Nat),
      link.recv (('T').toNat) = (('T').toNat, 0, bs) →
      (AppSetDateTime link dateTime).2 = .ok ()) ∧
    (∀ (link : Link) (bs : List Nat),
      link.recv (('A').toNat) = (('A').toNat, 0, bs) →
      (AppSetNormalMode link).2 = .ok ()) ∧
    (∀ (link : Link) (bs : List Nat),
      link.recv (('a').toNat) = (('a').toNat, 0, bs) →
      (AppSetPreviewMode link).2 = .ok ()) ∧
    (∀ (link : Link) (bs : List Nat),
      link.recv (('X').toNat) = (('X').toNat, 0, bs) →
      (AppFactoryReset link).2 = .ok ()) ∧
    (∀ (link : Link) (bs : List Nat),
      link.recv (('!').toNat) = (('!').toNat, 0, bs) →
      (AppActivateBootloader link).2 = .ok ()) ∧
    (∀ (link : Link) (matrix bs : List Nat),
      link.recv (('D').toNat) = (('D').toNat, 0, bs) →
      (AppSetPreviewMatrix link matrix).2 = .ok ()) ∧
    (∀ (link : Link) (n : Nat) (bs : List Nat),
      link.recv (('b').toNat) = (('b').toNat, n, bs) →
      (AppGetIntensity link n).2 = .ok bs) ∧
    (∀ (link : Link) (intensity bs : List Nat),
      link.recv (('B').toNat) = (('B').toNat, 0, bs) →
      (AppSetIntensity link intensity).2 = .ok ()) ∧
    (∀ (link : Link) (n : Nat) (bs : List Nat),
      link.recv (('c').toNat) = (('c').toNat, n, bs) →
      (AppGetLastCalibration link n).2 = .ok bs) ∧
    (∀ (link : Link) (p : ℚ) (bs : List Nat),
      link.recv (('C').toNat) = (('C').toNat, 0, bs) →
      (AppSetRtcCalibration link p).2 = .ok ()) ∧
    (∀ (link : Link) (n : Nat) (bs : List Nat),
      link.recv (('s').toNat) = (('s').toNat, n, bs) →
      (AppGetStandby link n).2 = .ok bs) ∧
    (∀ (link : Link) (standby bs : List Nat),
      link.recv (('S').toNat) = (('S').toNat, 0, bs) →
      (AppSetStandby link standby).2 = .ok ()) ∧
    (∀ (link : Link) (page : Nat) (rest : List Nat), page < 65536 →
      link.recv (('f').toNat) =
        (('f').toNat, 2 + rest.length, encodeBE16 page ++ rest) →
      (AppGetFlashConfigPage link page rest.length).2 = .ok ⟨page, rest⟩) ∧
    (∀ (link : Link) (page : Nat), page < 65536 →
      link.recv (('E').toNat) = (('E').toNat, 2, encodeBE16 page) →
      (AppEraseFlashConfigSector link page).2 = .ok ()) ∧
    (∀ (link : Link) (config : AppFlashClockConfigType),
      config.pageNumber < 65536 →
      link.recv (('F').toNat) = (('F').toNat, 2, encodeBE16 config.pageNumber) →
      (AppSetFlashClockConfig link config).2 = .ok config) ∧
    (∀ (link : Link) (n : Nat) (bs : List Nat),
      link.recv (('r').toNat) = (('r').toNat, n, bs) →
      (AppGetAppointments link n).2 = .ok bs) ∧
    (∀ (link : Link) (appointments bs : List Nat),
      link.recv (('R').toNat) = (('R').toNat, 0, bs) →
      (AppSetAppointments link appointments).2 = .ok ()) := by
  refine ⟨?_, ?_, ?_, ?_, ?_, ?_, ?_, ?_, ?_, ?_, ?_, ?_, ?_, ?_, ?_, ?_,
    ?_, ?_, ?_⟩
  · intro link a b c ha hb hc h
    have h2 := sendAndReceive_ok link (('v').toNat) () 0 6 _ h
    have key : (AppGetVersion link).2 =
        .ok ⟨APP_SWAP_ENDIAN_16 (readLE16 (a / 256) (a % 256)),
             APP_SWAP_ENDIAN_16 (readLE16 (b / 256) (b % 256)),
             APP_SWAP_ENDIAN_16 (readLE16 (c / 256) (c % 256))⟩ := by
      simp only [AppGetVersion]
      rw [h2]
      rfl
    rw [key, swap16_readBE a ha, swap16_readBE b hb, swap16_readBE c hc]
  · intro link n bs h
    exact sendAndReceive_ok link (('t').toNat) () 0 n bs h
  · intro link dateTime bs h
    have h2 := sendAndReceive_ok link (('T').toNat) dateTime dateTime.length 0 bs h
    simp only [AppSetDateTime]
    rw [h2]
    rfl
  · intro link bs h
    have h2 := sendAndReceive_ok link (('A').toNat) () 0 0 bs h
    simp only [AppSetNormalMode]
    rw [h2]
    rfl
  · intro link bs h
    have h2 := sendAndReceive_ok link (('a').toNat) () 0 0 bs h
    simp only [AppSetPreviewMode]
    rw [h2]
    rfl
  · intro link bs h
    have h2 := sendAndReceive_ok link (('X').toNat) () 0 0 bs h
    simp only [AppFactoryReset]
    rw [h2]
    rfl
  · intro link bs h
    have h2 := sendAndReceive_ok link (('!').toNat) () 0 0 bs h
    simp only [AppActivateBootloader]
    rw [h2]
    rfl
  · intro link matrix bs h
    have h2 := sendAndReceive_ok link (('D').toNat) matrix matrix.length 0 bs h
    simp only [AppSetPreviewMatrix]
    rw [h2]
    rfl
  · intro link n bs h
    exact sendAndReceive_ok link (('b').toNat) () 0 n bs h
  · intro link intensity bs h
    have h2 := sendAndReceive_ok link (('B').toNat) intensity intensity.length 0 bs h
    simp only [AppSetIntensity]
    rw [h2]
    rfl
  · intro link n bs h
    exact sendAndReceive_ok link (('c').toNat) () 0 n bs h
  · intro link p bs h
    have h2 := sendAndReceive_ok link (('C').toNat)
      (if p > APP_PPM_LIMIT then APP_PPM_LIMIT
       else if p < -APP_PPM_LIMIT then -APP_PPM_LIMIT else p) 4 0 bs h
    simp only [AppSetRtcCalibration]
    rw [h2]
    rfl
  · intro link n bs h
    exact sendAndReceive_ok link (('s').toNat) () 0 n bs h
  · intro link standby bs h
    have h2 := sendAndReceive_ok link (('S').toNat) standby standby.length 0 bs h
    simp only [AppSetStandby]
    rw [h2]
    rfl
  · intro link page rest hp h
    rw [getFlashConfigPage_cases link page page rest hp hp h]
    simp
  · intro link page hp h
    rw [eraseFlashConfigSector_cases link page page hp hp h]
    simp
  · intro link config hp h
    rw [setFlashClockConfig_cases link config config.pageNumber hp hp h]
    simp
  · intro link n bs h
    exact sendAndReceive_ok link (('r').toNat) () 0 n bs h
  · intro link appointments bs h
    have h2 := sendAndReceive_ok link (('R').toNat) appointments
      appointments.length 0 bs h
    simp only [AppSetAppointments]
    rw [h2]
    rfl

/-- C2: for every Catalog operation, if the link's receive returns a tag
different from the command tag that was sent, the operation fails with a
tag-mismatch error naming the unexpected tag, whatever the received length
and payload; in particular no endian swap, echo check or result follows. -/
theorem C2_tag_mismatch :
    (∀ (link : Link) (recvCmd recvLength : Nat) (bs : List Nat),
      recvCmd ≠ ('v').toNat →
      link.recv (('v').toNat) = (recvCmd, recvLength, bs) →
      (AppGetVersion link).2 = .error (.invalidAnswerCommand recvCmd)) ∧
    (∀ (link : Link) (n recvCmd recvLength : Nat) (bs : List Nat),
      recvCmd ≠ ('t').toNat →
      link.recv (('t').toNat) = (recvCmd, recvLength, bs) →
      (AppGetDateTime link n).2 = .error (.invalidAnswerCommand recvCmd)) ∧
    (∀ (link : Link) (dateTime : List Nat) (recvCmd recvLength : Nat)
      (bs : List Nat), recvCmd ≠ ('T').toNat →
      link.recv (('T').toNat) = (recvCmd, recvLength, bs) →
      (AppSetDateTime link dateTime).2 = .error (.invalidAnswerCommand recvCmd)) ∧
    (∀ (link : Link) (recvCmd recvLength : Nat) (bs : List Nat),
      recvCmd ≠ ('A').toNat →
      link.recv (('A').toNat) = (recvCmd, recvLength, bs) →
      (AppSetNormalMode link).2 = .error (.invalidAnswerCommand recvCmd)) ∧
    (∀ (link : Link) (recvCmd recvLength : Nat) (bs : List Nat),
      recvCmd ≠ ('a').toNat →
      link.recv (('a').toNat) = (recvCmd, recvLength, bs) →
      (AppSetPreviewMode link).2 = .error (.invalidAnswerCommand recvCmd)) ∧
    (∀ (link : Link) (recvCmd recvLength : Nat) (bs : List Nat),
      recvCmd ≠ ('X').toNat →
      link.recv (('X').toNat) = (recvCmd, recvLength, bs) →
      (AppFactoryReset link).2 = .error (.invalidAnswerCommand recvCmd)) ∧
    (∀ (link : Link) (recvCmd recvLength : Nat) (bs : List Nat),
      recvCmd ≠ ('!').toNat →
      link.recv (('!').toNat) = (recvCmd, recvLength, bs) →
      (AppActivateBootloader link).2 = .error (.invalidAnswerCommand recvCmd)) ∧
    (∀ (link : Link) (matrix : List Nat) (recvCmd recvLength : Nat)
      (bs : List Nat), recvCmd ≠ ('D').toNat →
      link.recv (('D').toNat) = (recvCmd, recvLength, bs) →
      (AppSetPreviewMatrix link matrix).2 = .error (.invalidAnswerCommand recvCmd)) ∧
    (∀ (link : Link) (n recvCmd recvLength : Nat) (bs : List Nat),
      recvCmd ≠ ('b').toNat →
      link.recv (('b').toNat) = (recvCmd, recvLength, bs) →
      (AppGetIntensity link n).2 = .error (.invalidAnswerCommand recvCmd)) ∧
    (∀ (link : Link) (intensity : List Nat) (recvCmd recvLength : Nat)
      (bs : List Nat), recvCmd ≠ ('B').toNat →
      link.recv (('B').toNat) = (recvCmd, recvLength, bs) →
      (AppSetIntensity link intensity).2 = .error (.invalidAnswerCommand recvCmd)) ∧
    (∀ (link : Link) (n recvCmd recvLength : Nat) (bs : List Nat),
      recvCmd ≠ ('c').toNat →
      link.recv (('c').toNat) = (recvCmd, recvLength, bs) →
      (AppGetLastCalibration link n).2 = .error (.invalidAnswerCommand recvCmd)) ∧
    (∀ (link : Link) (p : ℚ) (recvCmd recvLength : Nat) (bs : List Nat),
      recvCmd ≠ ('C').toNat →
      link.recv (('C').toNat) = (recvCmd, recvLength, bs) →
      (AppSetRtcCalibration link p).2 = .error (.invalidAnswerCommand recvCmd)) ∧
    (∀ (link : Link) (n recvCmd recvLength : Nat) (bs : List Nat),
      recvCmd ≠ ('s').toNat →
      link.recv (('s').toNat) = (recvCmd, recvLength, bs) →
      (AppGetStandby link n).2 = .error (.invalidAnswerCommand recvCmd)) ∧
    (∀ (link : Link) (standby : List Nat) (recvCmd recvLength : Nat)
      (bs : List Nat), recvCmd ≠ ('S').toNat →
      link.recv (('S').toNat) = (recvCmd, recvLength, bs) →
      (AppSetStandby link standby).2 = .error (.invalidAnswerCommand recvCmd)) ∧
    (∀ (link : Link) (page k recvCmd recvLength : Nat) (bs : List Nat),
      recvCmd ≠ ('f').toNat →
      link.recv (('f').toNat) = (recvCmd, recvLength, bs) →
      (AppGetFlashConfigPage link page k).2 =
        .error (.invalidAnswerCommand recvCmd)) ∧
    (∀ (link : Link) (page recvCmd recvLength : Nat) (bs : List Nat),
      recvCmd ≠ ('E').toNat →
      link.recv (('E').toNat) = (recvCmd, recvLength, bs) →
      (AppEraseFlashConfigSector link page).2 =
        .error (.invalidAnswerCommand recvCmd)) ∧
    (∀ (link : Link) (config : AppFlashClockConfigType)
      (recvCmd recvLength : Nat) (bs : List Nat), recvCmd ≠ ('F').toNat →
      link.recv (('F').toNat) = (recvCmd, recvLength, bs) →
      (AppSetFlashClockConfig link config).2 =
        .error (.invalidAnswerCommand recvCmd)) ∧
    (∀ (link : Link) (n recvCmd recvLength : Nat) (bs : List Nat),
      recvCmd ≠ ('r').toNat →
      link.recv (('r').toNat) = (recvCmd, recvLength, bs) →
      (AppGetAppointments link n).2 = .error (.invalidAnswerCommand recvCmd)) ∧
    (∀ (link : Link) (appointments : List Nat) (recvCmd recvLength : Nat)
      (bs : List Nat), recvCmd ≠ ('R').toNat →
      link.recv (('R').toNat) = (recvCmd, recvLength, bs) →
      (AppSetAppointments link appointments).2 =
        .error (.invalidAnswerCommand recvCmd)) := by
  refine ⟨?_, ?_, ?_, ?_, ?_, ?_, ?_, ?_, ?_, ?_, ?_, ?_, ?_, ?_, ?_, ?_,
    ?_, ?_, ?_⟩
  · intro link recvCmd recvLength bs hne h
    have h2 := sendAndReceive_badTag link (('v').toNat) () 0 6
      recvCmd recvLength bs h hne
    simp only [AppGetVersion]
    rw [h2]
    rfl
  · intro link n recvCmd recvLength bs hne h
    exact sendAndReceive_badTag link (('t').toNat) () 0 n
      recvCmd recvLength bs h hne
  · intro link dateTime recvCmd recvLength bs hne h
    have h2 := sendAndReceive_badTag link (('T').toNat) dateTime
      dateTime.length 0 recvCmd recvLength bs h hne
    simp only [AppSetDateTime]
    rw [h2]
    rfl
  · intro link recvCmd recvLength bs hne h
    have h2 := sendAndReceive_badTag link (('A').toNat) () 0 0
      recvCmd recvLength bs h hne
    simp only [AppSetNormalMode]
    rw [h2]
    rfl
  · intro link recvCmd recvLength bs hne h
    have h2 := sendAndReceive_badTag link (('a').toNat) () 0 0
      recvCmd recvLength bs h hne
    simp only [AppSetPreviewMode]
    rw [h2]
    rfl
  · intro link recvCmd recvLength bs hne h
    have h2 := sendAndReceive_badTag link (('X').toNat) () 0 0
      recvCmd recvLength bs h hne
    simp only [AppFactoryReset]
    rw [h2]
    rfl
  · intro link recvCmd recvLength bs hne h
    have h2 := sendAndReceive_badTag link (('!').toNat) () 0 0
      recvCmd recvLength bs h hne
    simp only [AppActivateBootloader]
    rw [h2]
    rfl
  · intro link matrix recvCmd recvLength bs hne h
    have h2 := sendAndReceive_badTag link (('D').toNat) matrix
      matrix.length 0 recvCmd recvLength bs h hne
    simp only [AppSetPreviewMatrix]
    rw [h2]
    rfl
  · intro link n recvCmd recvLength bs hne h
    exact sendAndReceive_badTag link (('b').toNat) () 0 n
      recvCmd recvLength bs h hne
  · intro link intensity recvCmd recvLength bs hne h
    have h2 := sendAndReceive_badTag link (('B').toNat) intensity
      intensity.length 0 recvCmd recvLength bs h hne
    simp only [AppSetIntensity]
    rw [h2]
    rfl
  · intro link n recvCmd recvLength bs hne h
    exact sendAndReceive_badTag link (('c').toNat) () 0 n
      recvCmd recvLength bs h hne
  · intro link p recvCmd recvLength bs hne h
    have h2 := sendAndReceive_badTag link (('C').toNat)
      (if p > APP_PPM_LIMIT then APP_PPM_LIMIT
       else if p < -APP_PPM_LIMIT then -APP_PPM_LIMIT else p) 4 0
      recvCmd recvLength bs h hne
    simp only [AppSetRtcCalibration]
    rw [h2]
    rfl
  · intro link n recvCmd recvLength bs hne h
    exact sendAndReceive_badTag link (('s').toNat) () 0 n
      recvCmd recvLength bs h hne
  · intro link standby recvCmd recvLength bs hne h
    have h2 := sendAndReceive_badTag link (('S').toNat) standby
      standby.length 0 recvCmd recvLength bs h hne
    simp only [AppSetStandby]
    rw [h2]
    rfl
  · intro link page k recvCmd recvLength bs hne h
    have h2 := sendAndReceive_badTag link (('f').toNat)
      (APP_SWAP_ENDIAN_16 page) 2 (2 + k) recvCmd recvLength bs h hne
    simp only [AppGetFlashConfigPage]
    rw [h2]
    rfl
  · intro link page recvCmd recvLength bs hne h
    have h2 := sendAndReceive_badTag link (('E').toNat)
      (APP_SWAP_ENDIAN_16 page) 2 2 recvCmd recvLength bs h hne
    simp only [AppEraseFlashConfigSector]
    rw [h2]
    rfl
  · intro link config recvCmd recvLength bs hne h
    have h2 := sendAndReceive_badTag link (('F').toNat)
      { config with pageNumber := APP_SWAP_ENDIAN_16 config.pageNumber }
      (2 + config.clockConfig.length) 2 recvCmd recvLength bs h hne
    simp only [AppSetFlashClockConfig]
    rw [h2]
    rfl
  · intro link n recvCmd recvLength bs hne h
    exact sendAndReceive_badTag link (('r').toNat) () 0 n
      recvCmd recvLength bs h hne
  · intro link appointments recvCmd recvLength bs hne h
    have h2 := sendAndReceive_badTag link (('R').toNat) appointments
      appointments.length 0 recvCmd recvLength bs h hne
    simp only [AppSetAppointments]
    rw [h2]
    rfl

/-- A simulated device that answers every command with the wrong tag `z`. -/
def simDeviceWrongTag : Link := ⟨fun _ => (('z').toNat, 6, [])⟩

/-- Witness for C2: the version query against a device answering with tag
`z` fails with the tag-mismatch error naming `z`. -/
theorem C2_tag_mismatch_witness :
    ('z').toNat ≠ ('v').toNat ∧
    simDeviceWrongTag.recv (('v').toNat) = (('z').toNat, 6, []) ∧
    (AppGetVersion simDeviceWrongTag).2 =
      .error (.invalidAnswerCommand (('z').toNat)) :=
  ⟨by decide, rfl,
    C2_tag_mismatch.1 simDeviceWrongTag (('z').toNat) 6 [] (by decide) rfl⟩

/-- C3: for every Catalog operation, if the link's receive echoes the
command tag but reports a length different (shorter or longer) from the
statically expected response length for that operation, the operation fails
with a length-mismatch error naming the received length. -/
theorem C3_length_mismatch :
    (∀ (link : Link) (recvLength : Nat) (bs : List Nat), recvLength ≠ 6 →
      link.recv (('v').toNat) = (('v').toNat, recvLength, bs) →
      (AppGetVersion link).2 = .error (.invalidLength recvLength)) ∧
    (∀ (link : Link) (n recvLength : Nat) (bs : List Nat), recvLength ≠ n →
      link.recv (('t').toNat) = (('t').toNat, recvLength, bs) →
      (AppGetDateTime link n).2 = .error (.invalidLength recvLength)) ∧
    (∀ (link : Link) (dateTime : List Nat) (recvLength : Nat) (bs : List Nat),
      recvLength ≠ 0 →
      link.recv (('T').toNat) = (('T').toNat, recvLength, bs) →
      (AppSetDateTime link dateTime).2 = .error (.invalidLength recvLength)) ∧
    (∀ (link : Link) (recvLength : Nat) (bs : List Nat), recvLength ≠ 0 →
      link.recv (('A').toNat) = (('A').toNat, recvLength, bs) →
      (AppSetNormalMode link).2 = .error (.invalidLength recvLength)) ∧
    (∀ (link : Link) (recvLength : Nat) (bs : List Nat), recvLength ≠ 0 →
      link.recv (('a').toNat) = (('a').toNat, recvLength, bs) →
      (AppSetPreviewMode link).2 = .error (.invalidLength recvLength)) ∧
    (∀ (link : Link) (recvLength : Nat) (bs : List Nat), recvLength ≠ 0 →
      link.recv (('X').toNat) = (('X').toNat, recvLength, bs) →
      (AppFactoryReset link).2 = .error (.invalidLength recvLength)) ∧
    (∀ (link : Link) (recvLength : Nat) (bs : List Nat), recvLength ≠ 0 →
      link.recv (('!').toNat) = (('!').toNat, recvLength, bs) →
      (AppActivateBootloader link).2 = .error (.invalidLength recvLength)) ∧
    (∀ (link : Link) (matrix : List Nat) (recvLength : Nat) (bs : List Nat),
      recvLength ≠ 0 →
      link.recv (('D').toNat) = (('D').toNat, recvLength, bs) →
      (AppSetPreviewMatrix link matrix).2 = .error (.invalidLength recvLength)) ∧
    (∀ (link : Link) (n recvLength : Nat) (bs : List Nat), recvLength ≠ n →
      link.recv (('b').toNat) = (('b').toNat, recvLength, bs) →
      (AppGetIntensity link n).2 = .error (.invalidLength recvLength)) ∧
    (∀ (link : Link) (intensity : List Nat) (recvLength : Nat) (bs : List Nat),
      recvLength ≠ 0 →
      link.recv (('B').toNat) = (('B').toNat, recvLength, bs) →
      (AppSetIntensity link intensity).2 = .error (.invalidLength recvLength)) ∧
    (∀ (link : Link) (n recvLength : Nat) (bs : List Nat), recvLength ≠ n →
      link.recv (('c').toNat) = (('c').toNat, recvLength, bs) →
      (AppGetLastCalibration link n).2 = .error (.invalidLength recvLength)) ∧
    (∀ (link : Link) (p : ℚ) (recvLength : Nat) (bs : List Nat),
      recvLength ≠ 0 →
      link.recv (('C').toNat) = (('C').toNat, recvLength, bs) →
      (AppSetRtcCalibration link p).2 = .error (.invalidLength recvLength)) ∧
    (∀ (link : Link) (n recvLength : Nat) (bs : List Nat), recvLength ≠ n →
      link.recv (('s').toNat) = (('s').toNat, recvLength, bs) →
      (AppGetStandby link n).2 = .error (.invalidLength recvLength)) ∧
    (∀ (link : Link) (standby : List Nat) (recvLength : Nat) (bs : List Nat),
      recvLength ≠ 0 →
      link.recv (('S').toNat) = (('S').toNat, recvLength, bs) →
      (AppSetStandby link standby).2 = .error (.invalidLength recvLength)) ∧
    (∀ (link : Link) (page k recvLength : Nat) (bs : List Nat),
      recvLength ≠ 2 + k →
      link.recv (('f').toNat) = (('f').toNat, recvLength, bs) →
      (AppGetFlashConfigPage link page k).2 =
        .error (.invalidLength recvLength)) ∧
    (∀ (link : Link) (page recvLength : Nat) (bs : List Nat),
      recvLength ≠ 2 →
      link.recv (('E').toNat) = (('E').toNat, recvLength, bs) →
      (AppEraseFlashConfigSector link page).2 =
        .error (.invalidLength recvLength)) ∧
    (∀ (link : Link) (config : AppFlashClockConfigType) (recvLength : Nat)
      (bs : List Nat), recvLength ≠ 2 →
      link.recv (('F').toNat) = (('F').toNat, recvLength, bs) →
      (AppSetFlashClockConfig link config).2 =
        .error (.invalidLength recvLength)) ∧
    (∀ (link : Link) (n recvLength : Nat) (bs : List Nat), recvLength ≠ n →
      link.recv (('r').toNat) = (('r').toNat, recvLength, bs) →
      (AppGetAppointments link n).2 = .error (.invalidLength recvLength)) ∧
    (∀ (link : Link) (appointments : List Nat) (recvLength : Nat)
      (bs : List Nat), recvLength ≠ 0 →
      link.recv (('R').toNat) = (('R').toNat, recvLength, bs) →
      (AppSetAppointments link appointments).2 =
        .error (.invalidLength recvLength)) := by
  refine ⟨?_, ?_, ?_, ?_, ?_, ?_, ?_, ?_, ?_, ?_, ?_, ?_, ?_, ?_, ?_, ?_,
    ?_, ?_, ?_⟩
  · intro link recvLength bs hne h
    have h2 := sendAndReceive_badLen link (('v').toNat) () 0 6
      recvLength bs h hne
    simp only [AppGetVersion]
    rw [h2]
    rfl
  · intro link n recvLength bs hne h
    exact sendAndReceive_badLen link (('t').toNat) () 0 n recvLength bs h hne
  · intro link dateTime recvLength bs hne h
    have h2 := sendAndReceive_badLen link (('T').toNat) dateTime
      dateTime.length 0 recvLength bs h hne
    simp only [AppSetDateTime]
    rw [h2]
    rfl
  · intro link recvLength bs hne h
    have h2 := sendAndReceive_badLen link (('A').toNat) () 0 0
      recvLength bs h hne
    simp only [AppSetNormalMode]
    rw [h2]
    rfl
  · intro link recvLength bs hne h
    have h2 := sendAndReceive_badLen link (('a').toNat) () 0 0
      recvLength bs h hne
    simp only [AppSetPreviewMode]
    rw [h2]
    rfl
  · intro link recvLength bs hne h
    have h2 := sendAndReceive_badLen link (('X').toNat) () 0 0
      recvLength bs h hne
    simp only [AppFactoryReset]
    rw [h2]
    rfl
  · intro link recvLength bs hne h
    have h2 := sendAndReceive_badLen link (('!').toNat) () 0 0
      recvLength bs h hne
    simp only [AppActivateBootloader]
    rw [h2]
    rfl
  · intro link matrix recvLength bs hne h
    have h2 := sendAndReceive_badLen link (('D').toNat) matrix
      matrix.length 0 recvLength bs h hne
    simp only [AppSetPreviewMatrix]
    rw [h2]
    rfl
  · intro link n recvLength bs hne h
    exact sendAndReceive_badLen link (('b').toNat) () 0 n recvLength bs h hne
  · intro link intensity recvLength bs hne h
    have h2 := sendAndReceive_badLen link (('B').toNat) intensity
      intensity.length 0 recvLength bs h hne
    simp only [AppSetIntensity]
    rw [h2]
    rfl
  · intro link n recvLength bs hne h
    exact sendAndReceive_badLen link (('c').toNat) () 0 n recvLength bs h hne
  · intro link p recvLength bs hne h
    have h2 := sendAndReceive_badLen link (('C').toNat)
      (if p > APP_PPM_LIMIT then APP_PPM_LIMIT
       else if p < -APP_PPM_LIMIT then -APP_PPM_LIMIT else p) 4 0
      recvLength bs h hne
    simp only [AppSetRtcCalibration]
    rw [h2]
    rfl
  · intro link n recvLength bs hne h
    exact sendAndReceive_badLen link (('s').toNat) () 0 n recvLength bs h hne
  · intro link standby recvLength bs hne h
    have h2 := sendAndReceive_badLen link (('S').toNat) standby
      standby.length 0 recvLength bs h hne
    simp only [AppSetStandby]
    rw [h2]
    rfl
  · intro link page k recvLength bs hne h
    have h2 := sendAndReceive_badLen link (('f').toNat)
      (APP_SWAP_ENDIAN_16 page) 2 (2 + k) recvLength bs h hne
    simp only [AppGetFlashConfigPage]
    rw [h2]
    rfl
  · intro link page recvLength bs hne h
    have h2 := sendAndReceive_badLen link (('E').toNat)
      (APP_SWAP_ENDIAN_16 page) 2 2 recvLength bs h hne
    simp only [AppEraseFlashConfigSector]
    rw [h2]
    rfl
  · intro link config recvLength bs hne h
    have h2 := sendAndReceive_badLen link (('F').toNat)
      { config with pageNumber := APP_SWAP_ENDIAN_16 config.pageNumber }
      (2 + config.clockConfig.length) 2 recvLength bs h hne
    simp only [AppSetFlashClockConfig]
    rw [h2]
    rfl
  · intro link n recvLength bs hne h
    exact sendAndReceive_badLen link (('r').toNat) () 0 n recvLength bs h hne
  · intro link appointments recvLength bs hne h
    have h2 := sendAndReceive_badLen link (('R').toNat) appointments
      appointments.length 0 recvLength bs h hne
    simp only [AppSetAppointments]
    rw [h2]
    rfl

/-- A simulated device that echoes every tag but answers with 5 bytes. -/
def simDeviceShort : Link := ⟨fun t => (t, 5, [0, 0, 0, 0, 0])⟩

/-- Witness for C3: the version query (expected length 6) against a device
answering 5 bytes fails with the length-mismatch error naming 5. -/
theorem C3_length_mismatch_witness :
    (5 : Nat) ≠ 6 ∧
    simDeviceShort.recv (('v').toNat) = (('v').toNat, 5, [0, 0, 0, 0, 0]) ∧
    (AppGetVersion simDeviceShort).2 = .error (.invalidLength 5) :=
  ⟨by decide, rfl,
    C3_length_mismatch.1 simDeviceShort 5 [0, 0, 0, 0, 0] (by decide) rfl⟩

/-- C9: in the send-and-receive primitive through which every operation
flows, the tag check precedes the length check: if the response has both a
wrong tag and a wrong length, the failure reported is the tag-mismatch
error naming the tag, not the length-mismatch error. -/
theorem C9_tag_check_precedes_length_check :
    ∀ {α : Type} (link : Link) (command : Nat) (sendBuf : α)
      (sendBufLen recvBufLen recvCmd recvLength : Nat) (bs : List Nat),
      link.recv command = (recvCmd, recvLength, bs) →
      recvCmd ≠ command → recvLength ≠ recvBufLen →
      (AppSendAndReceive link command sendBuf sendBufLen recvBufLen).2 =
          .error (.invalidAnswerCommand recvCmd) ∧
        (AppSendAndReceive link command sendBuf sendBufLen recvBufLen).2 ≠
          .error (.invalidLength recvLength) := by
  intro α link command sendBuf sendBufLen recvBufLen recvCmd recvLength bs
    h hTag hLen
  have h2 := sendAndReceive_badTag link command sendBuf sendBufLen recvBufLen
    recvCmd recvLength bs h hTag
  refine ⟨h2, ?_⟩
  rw [h2]
  intro hc
  exact AppError.noConfusion (Except.error.inj hc)

/-- A simulated device that answers every command with the wrong tag `z`
and the wrong length 9. -/
def simDeviceWrongBoth : Link := ⟨fun _ => (('z').toNat, 9, [])⟩

/-- Witness for C9: the version exchange (tag `v`, expected length 6)
against a device answering tag `z` with length 9 reports the tag-mismatch
error, not the length-mismatch error. -/
theorem C9_tag_check_precedes_length_check_witness :
    simDeviceWrongBoth.recv (('v').toNat) = (('z').toNat, 9, []) ∧
    ('z').toNat ≠ ('v').toNat ∧ (9 : Nat) ≠ 6 ∧
    (AppSendAndReceive simDeviceWrongBoth (('v').toNat) () 0 6).2 =
        .error (.invalidAnswerCommand (('z').toNat)) ∧
      (AppSendAndReceive simDeviceWrongBoth (('v').toNat) () 0 6).2 ≠
        .error (.invalidLength 9) :=
  ⟨rfl, by decide, by decide,
    C9_tag_check_precedes_length_check simDeviceWrongBoth (('v').toNat) () 0 6
      (('z').toNat) 9 [] rfl (by decide) (by decide)⟩

/-- C10: operations with no response payload still perform a receive and
validate it: the received tag must equal the sent tag and the received
length must be exactly 0, otherwise the operation fails with the
corresponding fatal error; when both hold the operation succeeds. -/
theorem C10_void_ops_validate :
    (∀ (link : Link) (dateTime : List Nat) (recvCmd recvLength : Nat)
      (bs : List Nat),
      link.recv (('T').toNat) = (recvCmd, recvLength, bs) →
      (recvCmd ≠ ('T').toNat →
        (AppSetDateTime link dateTime).2 =
          .error (.invalidAnswerCommand recvCmd)) ∧
      (recvCmd = ('T').toNat → recvLength ≠ 0 →
        (AppSetDateTime link dateTime).2 = .error (.invalidLength recvLength)) ∧
      (recvCmd = ('T').toNat → recvLength = 0 →
        (AppSetDateTime link dateTime).2 = .ok ())) ∧
    (∀ (link : Link) (recvCmd recvLength : Nat) (bs : List Nat),
      link.recv (('A').toNat) = (recvCmd, recvLength, bs) →
      (recvCmd ≠ ('A').toNat →
        (AppSetNormalMode link).2 = .error (.invalidAnswerCommand recvCmd)) ∧
      (recvCmd = ('A').toNat → recvLength ≠ 0 →
        (AppSetNormalMode link).2 = .error (.invalidLength recvLength)) ∧
      (recvCmd = ('A').toNat → recvLength = 0 →
        (AppSetNormalMode link).2 = .ok ())) ∧
    (∀ (link : Link) (recvCmd recvLength : Nat) (bs : List Nat),
      link.recv (('a').toNat) = (recvCmd, recvLength, bs) →
      (recvCmd ≠ ('a').toNat →
        (AppSetPreviewMode link).2 = .error (.invalidAnswerCommand recvCmd)) ∧
      (recvCmd = ('a').toNat → recvLength ≠ 0 →
        (AppSetPreviewMode link).2 = .error (.invalidLength recvLength)) ∧
      (recvCmd = ('a').toNat → recvLength = 0 →
        (AppSetPreviewMode link).2 = .ok ())) ∧
    (∀ (link : Link) (recvCmd recvLength : Nat) (bs : List Nat),
      link.recv (('X').toNat) = (recvCmd, recvLength, bs) →
      (recvCmd ≠ ('X').toNat →
        (AppFactoryReset link).2 = .error (.invalidAnswerCommand recvCmd)) ∧
      (recvCmd = ('X').toNat → recvLength ≠ 0 →
        (AppFactoryReset link).2 = .error (.invalidLength recvLength)) ∧
      (recvCmd = ('X').toNat → recvLength = 0 →
        (AppFactoryReset link).2 = .ok ())) ∧
    (∀ (link : Link) (recvCmd recvLength : Nat) (bs : List Nat),
      link.recv (('!').toNat) = (recvCmd, recvLength, bs) →
      (recvCmd ≠ ('!').toNat →
        (AppActivateBootloader link).2 =
          .error (.invalidAnswerCommand recvCmd)) ∧
      (recvCmd = ('!').toNat → recvLength ≠ 0 →
        (AppActivateBootloader link).2 =
          .error (.invalidLength recvLength)) ∧
      (recvCmd = ('!').toNat → recvLength = 0 →
        (AppActivateBootloader link).2 = .ok ())) ∧
    (∀ (link : Link) (matrix : List Nat) (recvCmd recvLength : Nat)
      (bs : List Nat),
      link.recv (('D').toNat) = (recvCmd, recvLength, bs) →
      (recvCmd ≠ ('D').toNat →
        (AppSetPreviewMatrix link matrix).2 =
          .error (.invalidAnswerCommand recvCmd)) ∧
      (recvCmd = ('D').toNat → recvLength ≠ 0 →
        (AppSetPreviewMatrix link matrix).2 =
          .error (.invalidLength recvLength)) ∧
      (recvCmd = ('D').toNat → recvLength = 0 →
        (AppSetPreviewMatrix link matrix).2 = .ok ())) ∧
    (∀ (link : Link) (intensity : List Nat) (recvCmd recvLength : Nat)
      (bs : List Nat),
      link.recv (('B').toNat) = (recvCmd, recvLength, bs) →
      (recvCmd ≠ ('B').toNat →
        (AppSetIntensity link intensity).2 =
          .error (.invalidAnswerCommand recvCmd)) ∧
      (recvCmd = ('B').toNat → recvLength ≠ 0 →
        (AppSetIntensity link intensity).2 =
          .error (.invalidLength recvLength)) ∧
      (recvCmd = ('B').toNat → recvLength = 0 →
        (AppSetIntensity link intensity).2 = .ok ())) ∧
    (∀ (link : Link) (p : ℚ) (recvCmd recvLength : Nat) (bs : List Nat),
      link.recv (('C').toNat) = (recvCmd, recvLength, bs) →
      (recvCmd ≠ ('C').toNat →
        (AppSetRtcCalibration link p).2 =
          .error (.invalidAnswerCommand recvCmd)) ∧
      (recvCmd = ('C').toNat → recvLength ≠ 0 →
        (AppSetRtcCalibration link p).2 =
          .error (.invalidLength recvLength)) ∧
      (recvCmd = ('C').toNat → recvLength = 0 →
        (AppSetRtcCalibration link p).2 = .ok ())) ∧
    (∀ (link : Link) (standby : List Nat) (recvCmd recvLength : Nat)
      (bs : List Nat),
      link.recv (('S').toNat) = (recvCmd, recvLength, bs) →
      (recvCmd ≠ ('S').toNat →
        (AppSetStandby link standby).2 =
          .error (.invalidAnswerCommand recvCmd)) ∧
      (recvCmd = ('S').toNat → recvLength ≠ 0 →
        (AppSetStandby link standby).2 =
          .error (.invalidLength recvLength)) ∧
      (recvCmd = ('S').toNat → recvLength = 0 →
        (AppSetStandby link standby).2 = .ok ())) ∧
    (∀ (link : Link) (appointments : List Nat) (recvCmd recvLength : Nat)
      (bs : List Nat),
      link.recv (('R').toNat) = (recvCmd, recvLength, bs) →
      (recvCmd ≠ ('R').toNat →
        (AppSetAppointments link appointments).2 =
          .error (.invalidAnswerCommand recvCmd)) ∧
      (recvCmd = ('R').toNat → recvLength ≠ 0 →
        (AppSetAppointments link appointments).2 =
          .error (.invalidLength recvLength)) ∧
      (recvCmd = ('R').toNat → recvLength = 0 →
        (AppSetAppointments link appointments).2 = .ok ())) := by
  have voidStep : ∀ {α : Type} (link : Link) (t : Nat) (p : α) (m : Nat)
      (recvCmd recvLength : Nat) (bs : List Nat),
      link.recv t = (recvCmd, recvLength, bs) →
      (recvCmd ≠ t →
        ((AppSendAndReceive link t p m 0).2.map fun _ => ()) =
          .error (.invalidAnswerCommand recvCmd)) ∧
      (recvCmd = t → recvLength ≠ 0 →
        ((AppSendAndReceive link t p m 0).2.map fun _ => ()) =
          .error (.invalidLength recvLength)) ∧
      (recvCmd = t → recvLength = 0 →
        ((AppSendAndReceive link t p m 0).2.map fun _ => ()) = .ok ()) := by
    intro α link t p m recvCmd recvLength bs h
    refine ⟨?_, ?_, ?_⟩
    · intro hne
      rw [sendAndReceive_badTag link t p m 0 recvCmd recvLength bs h hne]
      rfl
    · intro he hne
      rw [he] at h
      rw [sendAndReceive_badLen link t p m 0 recvLength bs h hne]
      rfl
    · intro he hl
      rw [he, hl] at h
      rw [sendAndReceive_ok link t p m 0 bs h]
      rfl
  refine ⟨?_, ?_, ?_, ?_, ?_, ?_, ?_, ?_, ?_, ?_⟩
  · intro link dateTime recvCmd recvLength bs h
    exact voidStep link (('T').toNat) dateTime dateTime.length
      recvCmd recvLength bs h
  · intro link recvCmd recvLength bs h
    exact voidStep link (('A').toNat) () 0 recvCmd recvLength bs h
  · intro link recvCmd recvLength bs h
    exact voidStep link (('a').toNat) () 0 recvCmd recvLength bs h
  · intro link recvCmd recvLength bs h
    exact voidStep link (('X').toNat) () 0 recvCmd recvLength bs h
  · intro link recvCmd recvLength bs h
    exact voidStep link (('!').toNat) () 0 recvCmd recvLength bs h
  · intro link matrix recvCmd recvLength bs h
    exact voidStep link (('D').toNat) matrix matrix.length
      recvCmd recvLength bs h
  · intro link intensity recvCmd recvLength bs h
    exact voidStep link (('B').toNat) intensity intensity.length
      recvCmd recvLength bs h
  · intro link p recvCmd recvLength bs h
    exact voidStep link (('C').toNat)
      (if p > APP_PPM_LIMIT then APP_PPM_LIMIT
       else if p < -APP_PPM_LIMIT then -APP_PPM_LIMIT else p) 4
      recvCmd recvLength bs h
  · intro link standby recvCmd recvLength bs h
    exact voidStep link (('S').toNat) standby standby.length
      recvCmd recvLength bs h
  · intro link appointments recvCmd recvLength bs h
    exact voidStep link (('R').toNat) appointments appointments.length
      recvCmd recvLength bs h

/-- A simulated device that echoes every tag but answers with length 1. -/
def simDeviceLenOne : Link := ⟨fun t => (t, 1, [0])⟩

/-- Witness for C10: setting normal mode (tag `A`, no response payload)
against a device echoing the tag with length 1 fails with the
length-mismatch error naming 1. -/
theorem C10_void_ops_validate_witness :
    simDeviceLenOne.recv (('A').toNat) = (('A').toNat, 1, [0]) ∧
    (1 : Nat) ≠ 0 ∧
    (AppSetNormalMode simDeviceLenOne).2 = .error (.invalidLength 1) :=
  ⟨rfl, by decide,
    ((C10_void_ops_validate.2.1 simDeviceLenOne (('A').toNat) 1 [0]
      rfl).2.1) rfl (by decide)⟩

/-- The PPM value actually handed to the link layer by the RTC-calibration
set operation is the clamped input. -/
theorem rtcPayload (link : Link) (p : ℚ) :
    (AppSetRtcCalibration link p).1.payload =
      if p > APP_PPM_LIMIT then APP_PPM_LIMIT
      else if p < -APP_PPM_LIMIT then -APP_PPM_LIMIT else p := rfl

/-- C5: for every PPM input p the value actually transmitted lies in
[-189.0, 189.0] and equals p whenever p is already in that closed range;
input 250.0 transmits exactly 189.0, -250.0 transmits exactly -189.0, and
10.0 is transmitted unchanged.  Out-of-range values are silently saturated,
never rejected: the operation's outcome does not depend on the input
value. -/
theorem C5_rtc_calibration_clamp :
    (∀ (link : Link) (p : ℚ),
      -APP_PPM_LIMIT ≤ (AppSetRtcCalibration link p).1.payload ∧
      (AppSetRtcCalibration link p).1.payload ≤ APP_PPM_LIMIT) ∧
    (∀ (link : Link) (p : ℚ), -APP_PPM_LIMIT ≤ p → p ≤ APP_PPM_LIMIT →
      (AppSetRtcCalibration link p).1.payload = p) ∧
    (∀ link : Link, (AppSetRtcCalibration link 250).1.payload = 189) ∧
    (∀ link : Link, (AppSetRtcCalibration link (-250)).1.payload = -189) ∧
    (∀ link : Link, (AppSetRtcCalibration link 10).1.payload = 10) ∧
    (∀ (link : Link) (p q : ℚ),
      (AppSetRtcCalibration link p).2 = (AppSetRtcCalibration link q).2) := by
  refine ⟨?_, ?_, ?_, ?_, ?_, ?_⟩
  · intro link p
    rw [rtcPayload]
    simp only [APP_PPM_LIMIT]
    split_ifs with h1 h2 <;> constructor <;> linarith
  · intro link p hlo hhi
    rw [rtcPayload]
    simp only [APP_PPM_LIMIT] at *
    split_ifs with h1 h2 <;> linarith
  · intro link
    rw [rtcPayload]
    norm_num [APP_PPM_LIMIT]
  · intro link
    rw [rtcPayload]
    norm_num [APP_PPM_LIMIT]
  · intro link
    rw [rtcPayload]
    norm_num [APP_PPM_LIMIT]
  · intro link p q
    rfl

/-- A simulated device that echoes every tag with an empty answer. -/
def simDeviceEmpty : Link := ⟨fun t => (t, 0, [])⟩

/-- Witness for C5: the in-range input 10.0 is transmitted unchanged. -/
theorem C5_rtc_calibration_clamp_witness :
    -APP_PPM_LIMIT ≤ (10 : ℚ) ∧ (10 : ℚ) ≤ APP_PPM_LIMIT ∧
    (AppSetRtcCalibration simDeviceEmpty 10).1.payload = 10 :=
  ⟨by decide, by decide,
    C5_rtc_calibration_clamp.2.1 simDeviceEmpty 10 (by decide) (by decide)⟩

/-- C6: the version query sends tag `v` with no request payload and expects
the 6-byte response of three big-endian 16-bit fields, all three swapped to
host order after receipt; the device bytes 00 01 00 02 00 03 decode on the
little-endian host to major 1, minor 2, revision 3. -/
theorem C6_version_decode :
    (∀ link : Link, (AppGetVersion link).1 = ⟨('v').toNat, (), 0⟩) ∧
    (∀ link : Link,
      link.recv (('v').toNat) =
        (('v').toNat, 6, [0x00, 0x01, 0x00, 0x02, 0x00, 0x03]) →
      (AppGetVersion link).2 = .ok ⟨1, 2, 3⟩) := by
  constructor
  · intro link
    rfl
  · intro link h
    have h2 := sendAndReceive_ok link (('v').toNat) () 0 6 _ h
    simp only [AppGetVersion]
    rw [h2]
    rfl

/-- The simulated device of the C6 scenario: it echoes every tag and
answers with the big-endian bytes 00 01 00 02 00 03. -/
def simDeviceVersion123 : Link :=
  ⟨fun t => (t, 6, [0x00, 0x01, 0x00, 0x02, 0x00, 0x03])⟩

/-- Witness for C6 with the scenario device. -/
theorem C6_version_decode_witness :
    simDeviceVersion123.recv (('v').toNat) =
      (('v').toNat, 6, [0x00, 0x01, 0x00, 0x02, 0x00, 0x03]) ∧
    (AppGetVersion simDeviceVersion123).2 = .ok ⟨1, 2, 3⟩ :=
  ⟨rfl, C6_version_decode.2 simDeviceVersion123 rfl⟩

/-- C7: for flash-page-get and flash-sector-erase, the echoed 16-bit page
number is swapped back to host order and compared with the requested page;
equality lets the operation succeed, and a differing echo fails with an
echo-mismatch error identifying the echoed value. -/
theorem C7_flash_echo_mismatch :
    (∀ (link : Link) (page e : Nat) (rest : List Nat), page < 65536 →
      e < 65536 →
      link.recv (('f').toNat) =
        (('f').toNat, 2 + rest.length, encodeBE16 e ++ rest) →
      (e = page →
        (AppGetFlashConfigPage link page rest.length).2 = .ok ⟨page, rest⟩) ∧
      (e ≠ page →
        (AppGetFlashConfigPage link page rest.length).2 =
          .error (.badPageNumber e))) ∧
    (∀ (link : Link) (startPage e : Nat), startPage < 65536 → e < 65536 →
      link.recv (('E').toNat) = (('E').toNat, 2, encodeBE16 e) →
      (e = startPage → (AppEraseFlashConfigSector link startPage).2 = .ok ()) ∧
      (e ≠ startPage →
        (AppEraseFlashConfigSector link startPage).2 =
          .error (.badPageNumber e))) := by
  constructor
  · intro link page e rest hp he h
    rw [getFlashConfigPage_cases link page e rest hp he h]
    constructor
    · intro heq
      subst heq
      simp
    · intro hne
      simp [hne]
  · intro link startPage e hp he h
    rw [eraseFlashConfigSector_cases link startPage e hp he h]
    constructor
    · intro heq
      subst heq
      simp
    · intro hne
      simp [hne]

/-- The simulated device of the C7 scenario: it echoes every tag and
answers flash requests with the big-endian bytes of page number 7 (and an
empty page payload). -/
def simDeviceEcho7 : Link := ⟨fun t => (t, 2, encodeBE16 7)⟩

/-- Witness for C7: requesting flash page 5 while the device echoes page 7
fails with the echo-mismatch error identifying 7. -/
theorem C7_flash_echo_mismatch_witness :
    5 < 65536 ∧ 7 < 65536 ∧ (7 : Nat) ≠ 5 ∧
    simDeviceEcho7.recv (('f').toNat) =
      (('f').toNat, 2 + ([] : List Nat).length, encodeBE16 7 ++ []) ∧
    (AppGetFlashConfigPage simDeviceEcho7 5 ([] : List Nat).length).2 =
      .error (.badPageNumber 7) :=
  ⟨by decide, by decide, by decide, rfl,
    (C7_flash_echo_mismatch.1 simDeviceEcho7 5 7 [] (by decide) (by decide)
      rfl).2 (by decide)⟩

/-- C8: the flash-clock-config set operation transmits the caller's record
with the page-number field swapped to big-endian wire form (all other
fields unchanged), and a successful call leaves the caller's record equal
to its original host-order value; with page number 42 the wire frame
carries 0x2A00 and the restored record again holds 42. -/
theorem C8_flash_clock_config_swap_restore :
    (∀ (link : Link) (config : AppFlashClockConfigType),
      (AppSetFlashClockConfig link config).1 =
        ⟨('F').toNat,
         { config with pageNumber := APP_SWAP_ENDIAN_16 config.pageNumber },
         2 + config.clockConfig.length⟩) ∧
    (∀ (link : Link) (config result : AppFlashClockConfigType),
      config.pageNumber < 65536 →
      (AppSetFlashClockConfig link config).2 = .ok result →
      result = config) ∧
    (∀ (link : Link) (rest : List Nat),
      (AppSetFlashClockConfig link ⟨42, rest⟩).1.payload = ⟨0x2A00, rest⟩) ∧
    (∀ (link : Link) (rest : List Nat),
      link.recv (('F').toNat) = (('F').toNat, 2, encodeBE16 42) →
      (AppSetFlashClockConfig link ⟨42, rest⟩).2 = .ok ⟨42, rest⟩) := by
  refine ⟨?_, ?_, ?_, ?_⟩
  · intro link config
    rfl
  · intro link config result hp h
    rw [setFlashClockConfig_ok_inv link config result h,
      swap16_swap16 config.pageNumber hp]
  · intro link rest
    have step : (AppSetFlashClockConfig link ⟨42, rest⟩).1.payload =
        AppFlashClockConfigType.mk (APP_SWAP_ENDIAN_16 42) rest := rfl
    have h42 : APP_SWAP_ENDIAN_16 42 = 10752 := by
      rw [swap16_eq 42 (by norm_num)]
    rw [step, h42]
  · intro link rest h
    rw [setFlashClockConfig_cases link ⟨42, rest⟩ 42
      (show (42 : Nat) < 65536 by decide) (by decide) h]
    simp

/-- The simulated device of the C8 scenario: it echoes every tag and
answers with the big-endian bytes of page number 42. -/
def simDeviceEcho42 : Link := ⟨fun t => (t, 2, encodeBE16 42)⟩

/-- Witness for C8: a successful flash clock-config set with page number 42
returns the caller's record restored to host order. -/
theorem C8_flash_clock_config_swap_restore_witness :
    simDeviceEcho42.recv (('F').toNat) = (('F').toNat, 2, encodeBE16 42) ∧
    (AppSetFlashClockConfig simDeviceEcho42 ⟨42, [9]⟩).2 = .ok ⟨42, [9]⟩ :=
  ⟨rfl, C8_flash_clock_config_swap_restore.2.2.2 simDeviceEcho42 [9] rfl⟩

/-- A simulated device that echoes every tag and answers with the 6
big-endian bytes of version 1.2.3. -/
def simDeviceC1 : Link :=
  ⟨fun t => (t, 6, encodeBE16 1 ++ encodeBE16 2 ++ encodeBE16 3)⟩

/-- Witness for C1: the version query against a correctly echoing simulated
device decodes version 1.2.3 without error. -/
theorem C1_catalog_ok_witness :
    1 < 65536 ∧ 2 < 65536 ∧ 3 < 65536 ∧
    simDeviceC1.recv (('v').toNat) =
      (('v').toNat, 6, encodeBE16 1 ++ encodeBE16 2 ++ encodeBE16 3) ∧
    (AppGetVersion simDeviceC1).2 = .ok ⟨1, 2, 3⟩ :=
  ⟨by decide, by decide, by decide, rfl,
    C1_catalog_ok.1 simDeviceC1 1 2 3 (by decide) (by decide) (by decide) rfl⟩
